import Mathlib

/-!
Shallow embedding of `src/lambda/handler.py` (AWS Lambda handler around the
Amazon Bedrock runtime API).  Python values travelling through the handler are
JSON-like, so they are modelled by the inductive type `Json`; Python exceptions
are modelled by `Except PyErr`; the boto3 `bedrock-runtime` client is an
external collaborator and is modelled as a record of oracles (`BedrockClient`).
-/

/-- JSON-like Python values.  Numbers are restricted to integers: the handler
itself only ever produces the integer `1000` inside a serialized payload, and
no claim involves floating-point data (the Converse `temperature` is kept in a
separate structured payload, see `InferenceConfig`). -/
inductive Json : Type where
  | null : Json
  | bool : Bool → Json
  | num : Int → Json
  | str : String → Json
  | arr : List Json → Json
  | obj : List (String × Json) → Json
deriving Repr

mutual

/-- Boolean equality on `Json` (deriving is unavailable for this nested
inductive, so the instance is built by hand). -/
def Json.beq : Json → Json → Bool
  | .null, .null => true
  | .bool a, .bool b => a == b
  | .num a, .num b => a == b
  | .str a, .str b => a == b
  | .arr xs, .arr ys => Json.beqList xs ys
  | .obj fs, .obj gs => Json.beqObj fs gs
  | _, _ => false

/-- Boolean equality on lists of `Json`. -/
def Json.beqList : List Json → List Json → Bool
  | [], [] => true
  | x :: xs, y :: ys => Json.beq x y && Json.beqList xs ys
  | _, _ => false

/-- Boolean equality on association lists of `Json`. -/
def Json.beqObj : List (String × Json) → List (String × Json) → Bool
  | [], [] => true
  | (k1, v1) :: fs, (k2, v2) :: gs => k1 == k2 && Json.beq v1 v2 && Json.beqObj fs gs
  | _, _ => false

end

instance : BEq Json := ⟨Json.beq⟩

mutual

/-- `Json.beq` only identifies equal values. -/
def Json.beqSound : (a b : Json) → Json.beq a b = true → a = b
  | .null, .null, _ => rfl
  | .bool a, .bool b, h => by
      simp only [Json.beq, beq_iff_eq] at h; exact h ▸ rfl
  | .num a, .num b, h => by
      simp only [Json.beq, beq_iff_eq] at h; exact h ▸ rfl
  | .str a, .str b, h => by
      simp only [Json.beq, beq_iff_eq] at h; exact h ▸ rfl
  | .arr xs, .arr ys, h => by
      rw [Json.beqListSound xs ys (by simpa [Json.beq] using h)]
  | .obj fs, .obj gs, h => by
      rw [Json.beqObjSound fs gs (by simpa [Json.beq] using h)]

/-- `Json.beqList` only identifies equal lists. -/
def Json.beqListSound : (xs ys : List Json) → Json.beqList xs ys = true → xs = ys
  | [], [], _ => rfl
  | x :: xs, y :: ys, h => by
      simp only [Json.beqList, Bool.and_eq_true] at h
      rw [Json.beqSound x y h.1, Json.beqListSound xs ys h.2]

/-- `Json.beqObj` only identifies equal association lists. -/
def Json.beqObjSound :
    (fs gs : List (String × Json)) → Json.beqObj fs gs = true → fs = gs
  | [], [], _ => rfl
  | (k1, v1) :: fs, (k2, v2) :: gs, h => by
      simp only [Json.beqObj, Bool.and_eq_true, beq_iff_eq] at h
      rw [h.1.1, Json.beqSound v1 v2 h.1.2, Json.beqObjSound fs gs h.2]

end

mutual

/-- `Json.beq` is reflexive. -/
def Json.beqRefl : (a : Json) → Json.beq a a = true
  | .null => rfl
  | .bool a => by simp [Json.beq]
  | .num a => by simp [Json.beq]
  | .str a => by simp [Json.beq]
  | .arr xs => by simpa [Json.beq] using Json.beqListRefl xs
  | .obj fs => by simpa [Json.beq] using Json.beqObjRefl fs

/-- `Json.beqList` is reflexive. -/
def Json.beqListRefl : (xs : List Json) → Json.beqList xs xs = true
  | [] => rfl
  | x :: xs => by
      simp only [Json.beqList, Bool.and_eq_true]
      exact ⟨Json.beqRefl x, Json.beqListRefl xs⟩

/-- `Json.beqObj` is reflexive. -/
def Json.beqObjRefl : (fs : List (String × Json)) → Json.beqObj fs fs = true
  | [] => rfl
  | (k, v) :: fs => by
      simp only [Json.beqObj, Bool.and_eq_true, beq_iff_eq]
      exact ⟨⟨trivial, Json.beqRefl v⟩, Json.beqObjRefl fs⟩

end

instance : DecidableEq Json := fun a b =>
  if h : Json.beq a b = true then .isTrue (Json.beqSound a b h)
  else .isFalse (fun he => h (he ▸ Json.beqRefl a))

/-- A Python exception, abstracted to the text `str(e)` that the handler
interpolates into its error envelope.  Messages of built-in exceptions are
representative of CPython wording; the explicitly raised messages in
`invoke_bedrock` are verbatim. -/
structure PyErr : Type where
  msg : String
deriving DecidableEq, Repr

/-- Python type name of a JSON-like value, for exception messages. -/
def typeName : Json → String
  | .null => "NoneType"
  | .bool _ => "bool"
  | .num _ => "int"
  | .str _ => "str"
  | .arr _ => "list"
  | .obj _ => "dict"

/-- Python truthiness of a JSON-like value (`if not query:`). -/
def truthy : Json → Bool
  | .null => false
  | .bool b => b
  | .num n => n != 0
  | .str s => s.length != 0
  | .arr xs => !xs.isEmpty
  | .obj fs => !fs.isEmpty

/-- Does the character list `needle` occur contiguously in `hay`?  This is
Python's `needle in hay` for strings. -/
def listContains (hay needle : List Char) : Bool :=
  hay.tails.any (fun t => needle.isPrefixOf t)

/-- Python `needle in hay` on strings. -/
def strContainsS (hay needle : String) : Bool :=
  listContains hay.toList needle.toList

/-- Python `s.lower()`, character-wise (identical to CPython on the ASCII
identifiers involved; `String.toLower` itself is avoided because its
well-founded recursion does not reduce in the kernel). -/
def pyLower (s : String) : String :=
  String.mk (s.data.map Char.toLower)

/-- Lookup of a key in an object, first match (objects built by the parser and
the handler never carry duplicate keys). -/
def objLookup (fs : List (String × Json)) (k : String) : Option Json :=
  match fs with
  | [] => none
  | (k2, v) :: rest => if k2 = k then some v else objLookup rest k

/-- Python membership test `key in v` for a string key. -/
def pyInStr (key : String) (v : Json) : Except PyErr Bool :=
  match v with
  | .obj fs => .ok ((objLookup fs key).isSome)
  | .arr xs => .ok (xs.any (fun x => x == .str key))
  | .str s => .ok (strContainsS s key)
  | other => .error ⟨"argument of type " ++ typeName other ++ " is not iterable"⟩

/-- Python subscript `v[key]` for a string key. -/
def pyGetItemStr (v : Json) (key : String) : Except PyErr Json :=
  match v with
  | .obj fs =>
    match objLookup fs key with
    | some w => .ok w
    | none => .error ⟨key⟩
  | .str _ => .error ⟨"string indices must be integers"⟩
  | .arr _ => .error ⟨"list indices must be integers or slices, not str"⟩
  | other => .error ⟨typeName other ++ " object is not subscriptable"⟩

/-- Python subscript `v[i]` for a non-negative integer index. -/
def pyGetItemNat (v : Json) (i : Nat) : Except PyErr Json :=
  match v with
  | .arr xs =>
    match xs.get? i with
    | some w => .ok w
    | none => .error ⟨"list index out of range"⟩
  | .str s =>
    match s.toList.get? i with
    | some c => .ok (.str (String.mk [c]))
    | none => .error ⟨"string index out of range"⟩
  | .obj _ => .error ⟨toString i⟩
  | other => .error ⟨typeName other ++ " object is not subscriptable"⟩

/-- Python `len(v)`. -/
def pyLen (v : Json) : Except PyErr Nat :=
  match v with
  | .str s => .ok s.length
  | .arr xs => .ok xs.length
  | .obj fs => .ok fs.length
  | other => .error ⟨"object of type " ++ typeName other ++ " has no len"⟩

/-- Python `v.get(key, default)`; only dictionaries have `.get`. -/
def pyGet (v : Json) (key : String) (default : Json) : Except PyErr Json :=
  match v with
  | .obj fs =>
    match objLookup fs key with
    | some w => .ok w
    | none => .ok default
  | other => .error ⟨typeName other ++ " object has no attribute get"⟩

/-! ### `json.dumps` (CPython defaults: `ensure_ascii=True`, separators `", "` and `": "`) -/

/-- Lower-case hexadecimal digit. -/
def hexDigitChar (n : Nat) : Char :=
  if n < 10 then Char.ofNat (48 + n) else Char.ofNat (87 + n)

/-- A `\uXXXX` escape for a code unit. -/
def uEscape (n : Nat) : String :=
  String.mk ['\\', 'u', hexDigitChar (n / 4096 % 16), hexDigitChar (n / 256 % 16),
             hexDigitChar (n / 16 % 16), hexDigitChar (n % 16)]

/-- Escape one character the way CPython `json.dumps` does with its default
`ensure_ascii=True`: short escapes for the common control characters, `\uXXXX`
(surrogate pairs beyond the BMP) for other control and non-ASCII characters. -/
def escapeChar (c : Char) : String :=
  if c = '"' then "\\\""
  else if c = '\\' then "\\\\"
  else if c = '\n' then "\\n"
  else if c = '\r' then "\\r"
  else if c = '\t' then "\\t"
  else if c = '\x08' then "\\b"
  else if c = '\x0c' then "\\f"
  else if c.toNat < 0x20 || 0x7f ≤ c.toNat then
    if c.toNat ≤ 0xffff then uEscape c.toNat
    else uEscape (0xd800 + (c.toNat - 0x10000) / 0x400) ++
         uEscape (0xdc00 + (c.toNat - 0x10000) % 0x400)
  else String.mk [c]

/-- Serialize a string literal, quotes included. -/
def dumpsStr (s : String) : String :=
  "\"" ++ String.join (s.toList.map escapeChar) ++ "\""

mutual

/-- `json.dumps` with CPython default separators. -/
def json_dumps : Json → String
  | .null => "null"
  | .bool true => "true"
  | .bool false => "false"
  | .num n => toString n
  | .str s => dumpsStr s
  | .arr xs => "[" ++ dumpsItems xs ++ "]"
  | .obj fs => "\x7b" ++ dumpsFields fs ++ "\x7d"

/-- Comma-separated array elements. -/
def dumpsItems : List Json → String
  | [] => ""
  | [x] => json_dumps x
  | x :: y :: xs => json_dumps x ++ ", " ++ dumpsItems (y :: xs)

/-- Comma-separated `"key": value` pairs. -/
def dumpsFields : List (String × Json) → String
  | [] => ""
  | [(k, v)] => dumpsStr k ++ ": " ++ json_dumps v
  | (k, v) :: f :: fs => dumpsStr k ++ ": " ++ json_dumps v ++ ", " ++ dumpsFields (f :: fs)

end

/-! ### `json.loads`

A recursive-descent parser for the JSON fragment without fractional or
exponent-notation numbers (no claim involves floating-point data; an input
containing such a number is rejected, where CPython would build a float). -/

/-- JSON whitespace. -/
def isJsonWs (c : Char) : Bool :=
  c = ' ' || c = '\t' || c = '\n' || c = '\r'

/-- Drop leading JSON whitespace. -/
def skipWs : List Char → List Char
  | c :: cs => if isJsonWs c then skipWs cs else c :: cs
  | [] => []

/-- Value of a hexadecimal digit. -/
def hexVal (c : Char) : Option Nat :=
  if '0' ≤ c ∧ c ≤ '9' then some (c.toNat - 48)
  else if 'a' ≤ c ∧ c ≤ 'f' then some (c.toNat - 87)
  else if 'A' ≤ c ∧ c ≤ 'F' then some (c.toNat - 55)
  else none

/-- Parse the remainder of a JSON string literal (the opening quote already
consumed), handling the escape sequences of the JSON grammar.  A `\uXXXX`
escape becomes the scalar value of its code unit (lone surrogates collapse to
the replacement behaviour of `Char.ofNat`; no claim exercises them). -/
def parseStringChars (acc : List Char) : List Char → Option (String × List Char)
  | '"' :: rest => some (String.mk acc.reverse, rest)
  | '\\' :: 'u' :: a :: b :: c :: d :: rest => do
    let va ← hexVal a
    let vb ← hexVal b
    let vc ← hexVal c
    let vd ← hexVal d
    parseStringChars (Char.ofNat (4096 * va + 256 * vb + 16 * vc + vd) :: acc) rest
  | '\\' :: e :: rest =>
    match e with
    | '"' => parseStringChars ('"' :: acc) rest
    | '\\' => parseStringChars ('\\' :: acc) rest
    | '/' => parseStringChars ('/' :: acc) rest
    | 'n' => parseStringChars ('\n' :: acc) rest
    | 'r' => parseStringChars ('\r' :: acc) rest
    | 't' => parseStringChars ('\t' :: acc) rest
    | 'b' => parseStringChars ('\x08' :: acc) rest
    | 'f' => parseStringChars ('\x0c' :: acc) rest
    | _ => none
  | c :: rest => if c.toNat < 0x20 then none else parseStringChars (c :: acc) rest
  | [] => none

/-- Split off a maximal run of decimal digits. -/
def takeDigits : List Char → List Char × List Char
  | c :: cs =>
    if c.isDigit then
      let p := takeDigits cs
      (c :: p.1, p.2)
    else ([], c :: cs)
  | [] => ([], [])

/-- Decimal value of a digit run. -/
def digitsToNat (ds : List Char) : Nat :=
  ds.foldl (fun n c => 10 * n + (c.toNat - 48)) 0

/-- Parse a JSON integer (strict grammar: no leading zeros; a fractional part
or exponent makes the parse fail, see the module note above). -/
def parseNumber (cs : List Char) : Option (Int × List Char) :=
  let p := match cs with
    | '-' :: r => (true, r)
    | _ => (false, cs)
  match takeDigits p.2 with
  | ([], _) => none
  | (ds, rest) =>
    if 1 < ds.length ∧ ds.head? = some '0' then none
    else
      match rest with
      | c :: _ =>
        if c = '.' ∨ c = 'e' ∨ c = 'E' then none
        else some ((if p.1 then -(digitsToNat ds : Int) else (digitsToNat ds : Int)), rest)
      | [] => some ((if p.1 then -(digitsToNat ds : Int) else (digitsToNat ds : Int)), rest)

/-- Insert a key into an association list with Python `dict` semantics: a
repeated key keeps its first position but takes the latest value. -/
def insertKey (fs : List (String × Json)) (k : String) (v : Json) : List (String × Json) :=
  match fs with
  | [] => [(k, v)]
  | (k2, w) :: rest => if k2 = k then (k2, v) :: rest else (k2, w) :: insertKey rest k v

mutual

/-- Parse one JSON value (fuelled recursion; `json_loads` supplies ample fuel). -/
def parseValue : Nat → List Char → Option (Json × List Char)
  | 0, _ => none
  | fuel + 1, cs =>
    match skipWs cs with
    | 'n' :: 'u' :: 'l' :: 'l' :: rest => some (.null, rest)
    | 't' :: 'r' :: 'u' :: 'e' :: rest => some (.bool true, rest)
    | 'f' :: 'a' :: 'l' :: 's' :: 'e' :: rest => some (.bool false, rest)
    | '"' :: rest => (parseStringChars [] rest).map (fun p => (.str p.1, p.2))
    | '[' :: rest =>
      match skipWs rest with
      | ']' :: rest2 => some (.arr [], rest2)
      | cs2 => parseArrayItems fuel [] cs2
    | '\x7b' :: rest =>
      match skipWs rest with
      | '\x7d' :: rest2 => some (.obj [], rest2)
      | cs2 => parseObjItems fuel [] cs2
    | cs2 => (parseNumber cs2).map (fun p => (.num p.1, p.2))

/-- Parse the elements of a non-empty array, after the opening bracket. -/
def parseArrayItems : Nat → List Json → List Char → Option (Json × List Char)
  | 0, _, _ => none
  | fuel + 1, acc, cs => do
    let p ← parseValue fuel cs
    match skipWs p.2 with
    | ',' :: rest2 => parseArrayItems fuel (p.1 :: acc) rest2
    | ']' :: rest2 => some (.arr (p.1 :: acc).reverse, rest2)
    | _ => none

/-- Parse the members of a non-empty object, after the opening brace. -/
def parseObjItems : Nat → List (String × Json) → List Char → Option (Json × List Char)
  | 0, _, _ => none
  | fuel + 1, acc, cs =>
    match skipWs cs with
    | '"' :: rest => do
      let pk ← parseStringChars [] rest
      match skipWs pk.2 with
      | ':' :: rest3 => do
        let pv ← parseValue fuel rest3
        let acc2 := insertKey acc pk.1 pv.1
        match skipWs pv.2 with
        | ',' :: rest5 => parseObjItems fuel acc2 rest5
        | '\x7d' :: rest5 => some (.obj acc2, rest5)
        | _ => none
      | _ => none
    | _ => none

end

/-- Python `json.loads`, restricted as described above.  Error messages are
abbreviations of the CPython `ValueError` texts. -/
def json_loads (s : String) : Except PyErr Json :=
  match parseValue (2 * s.length + 2) s.toList with
  | some p => if (skipWs p.2).isEmpty then .ok p.1 else .error ⟨"Extra data"⟩
  | none => .error ⟨"Expecting value"⟩

/-! ### The Bedrock runtime client (external collaborator)

`boto3.client("bedrock-runtime")` is modelled as a record of two oracles.  A
successful `invoke_model` call carries the JSON value obtained by
`json.loads(response["body"].read())` (the streaming-body read and decode are
part of the collaborator); a successful `converse` call carries the structured
response dictionary.  A `clientError` outcome carries
`e.response["Error"]["Code"]` and `e.response["Error"]["Message"]` of a
`botocore` `ClientError`; `otherError` carries `str(e)` of any other
exception raised by the call. -/

/-- The `inferenceConfig` argument of `converse` (kept structured: it is a
Python dictionary handed to boto3, never serialized by the handler). -/
structure InferenceConfig : Type where
  maxTokens : Int
  temperature : Rat
deriving DecidableEq, Repr

/-- Outcome of one Bedrock API call. -/
inductive BedrockResult : Type where
  | ok : Json → BedrockResult
  | clientError : String → String → BedrockResult
  | otherError : String → BedrockResult

/-- The `bedrock-runtime` client: `invoke_model` takes the model id and the
serialized request body, `converse` takes the model id, the `messages`
argument and the `inferenceConfig` argument. -/
structure BedrockClient : Type where
  invoke_model : String → String → BedrockResult
  converse : String → Json → InferenceConfig → BedrockResult

/-! ### `invoke_bedrock` (handler.py lines 96-181) -/

/-- Line 13: the default model id (`BEDROCK_MODEL_ID` unset).  The possible
environment override is modelled by the `model_id` parameter threaded through
the functions below. -/
def MODEL_ID : String := "anthropic.claude-3-haiku-20240307-v1:0"

/-- Line 110: `'anthropic' in MODEL_ID.lower()`. -/
def isAnthropicModel (model_id : String) : Bool :=
  strContainsS (pyLower model_id) "anthropic"

/-- Lines 112-121: the Anthropic-style request body. -/
def anthropicRequestBody (query : Json) : Json :=
  .obj [("anthropic_version", .str "bedrock-2023-05-31"),
        ("max_tokens", .num 1000),
        ("messages", .arr [.obj [("role", .str "user"), ("content", query)]])]

/-- Lines 140-149: the `messages` argument of the Converse call. -/
def converseMessages (query : Json) : Json :=
  .arr [.obj [("role", .str "user"), ("content", .arr [.obj [("text", query)]])]]

/-- Lines 150-153: the `inferenceConfig` argument of the Converse call. -/
def converseInferenceConfig : InferenceConfig :=
  InferenceConfig.mk 1000 0.7

/-- Lines 130-134: extraction from the Anthropic response body.

    if 'content' in response_body and len(response_body['content']) > 0:
        return response_body['content'][0]['text']
    else:
        return "No response generated"
-/
def extractAnthropic (response_body : Json) : Except PyErr Json := do
  let hasContent ← pyInStr "content" response_body
  if hasContent then
    let content ← pyGetItemStr response_body "content"
    let n ← pyLen content
    if 0 < n then
      let first ← pyGetItemNat content 0
      pyGetItemStr first "text"
    else
      pure (.str "No response generated")
  else
    pure (.str "No response generated")

/-- Lines 156-160: extraction from the Converse response.

    if 'output' in response and 'message' in response['output']:
        return response['output']['message']['content'][0]['text']
    else:
        return "No response generated"
-/
def extractConverse (response : Json) : Except PyErr Json := do
  let hasOutput ← pyInStr "output" response
  if hasOutput then
    let out ← pyGetItemStr response "output"
    let hasMessage ← pyInStr "message" out
    if hasMessage then
      let message ← pyGetItemStr out "message"
      let content ← pyGetItemStr message "content"
      let first ← pyGetItemNat content 0
      pyGetItemStr first "text"
    else
      pure (.str "No response generated")
  else
    pure (.str "No response generated")

/-- Lines 162-177: translation of a `ClientError` into the exception the
handler re-raises (messages verbatim from the source). -/
def mapClientError (model_id code message : String) : PyErr :=
  if code = "AccessDeniedException" then
    ⟨"Access denied to Bedrock. Please ensure: 1) Model access is enabled in AWS Console, 2) Lambda role has bedrock:InvokeModel permission"⟩
  else if code = "ResourceNotFoundException" then
    ⟨"Model not found: " ++ model_id ++ ". Please check the model ID."⟩
  else
    ⟨"Bedrock error: " ++ message⟩

/-- Lines 96-181: `invoke_bedrock(query)`.  The final
`except Exception as e: raise` re-raises unchanged, so extraction exceptions
propagate as they are. -/
def invoke_bedrock (client : BedrockClient) (model_id : String) (query : Json) :
    Except PyErr Json :=
  if isAnthropicModel model_id then
    match client.invoke_model model_id (json_dumps (anthropicRequestBody query)) with
    | .ok response_body => extractAnthropic response_body
    | .clientError code message => .error (mapClientError model_id code message)
    | .otherError msg => .error ⟨msg⟩
  else
    match client.converse model_id (converseMessages query) converseInferenceConfig with
    | .ok response => extractConverse response
    | .clientError code message => .error (mapClientError model_id code message)
    | .otherError msg => .error ⟨msg⟩

/-! ### `lambda_handler` (handler.py lines 16-93) -/

/-- The header mapping repeated verbatim at all three return sites
(lines 48-53, 67-72, 84-89). -/
def standardHeaders : List (String × String) :=
  [("Content-Type", "application/json"),
   ("Access-Control-Allow-Origin", "*"),
   ("Access-Control-Allow-Headers", "Content-Type"),
   ("Access-Control-Allow-Methods", "POST, OPTIONS")]

/-- The outbound envelope. -/
structure LambdaResponse : Type where
  statusCode : Nat
  headers : List (String × String)
  body : String
deriving DecidableEq, Repr

/-- Lines 35-40: unwrap the gateway form.

    if 'body' in event:
        body = json.loads(event['body']) if isinstance(event['body'], str) else event['body']
    else:
        body = event
-/
def getBody (event : Json) : Except PyErr Json := do
  let hasBody ← pyInStr "body" event
  if hasBody then
    let b ← pyGetItemStr event "body"
    match b with
    | .str s => json_loads s
    | v => pure v
  else
    pure event

/-- Lines 35-43: the unwrapped body's `body.get('query', '')`. -/
def extractedQuery (event : Json) : Except PyErr Json := do
  let body ← getBody event
  pyGet body "query" (.str "")

/-- `json.dumps` of a one-field error object, as at lines 54-56 and 90-92. -/
def errorBody (msg : String) : String :=
  json_dumps (.obj [("error", .str msg)])

/-- Lines 33-78: the body of the `try` block (its early `return`s become
`pure`d envelopes; an uncaught exception is the `.error` case). -/
def handlerTry (client : BedrockClient) (model_id : String) (event : Json) :
    Except PyErr LambdaResponse := do
  let query ← extractedQuery event
  if !truthy query then
    pure (LambdaResponse.mk 400 standardHeaders (errorBody "Query is required"))
  else do
    let response ← invoke_bedrock client model_id query
    pure (LambdaResponse.mk 200 standardHeaders
      (json_dumps (.obj [("query", query), ("response", response), ("model", .str model_id)])))

/-- Lines 16-93: `lambda_handler(event, context)` (the unused `context` and
the `print` diagnostics are dropped; `except Exception` at line 80 is the
`.error` branch). -/
def lambda_handler (client : BedrockClient) (model_id : String) (event : Json) :
    LambdaResponse :=
  match handlerTry client model_id event with
  | .ok r => r
  | .error e =>
    LambdaResponse.mk 500 standardHeaders (errorBody ("Internal server error: " ++ e.msg))

/-! ### Helper lemmas -/

/-- Reduction of a successful `Except` bind. -/
theorem exceptBind_ok {α β : Type} (a : α) (f : α → Except PyErr β) :
    (Except.ok a : Except PyErr α) >>= f = f a := rfl

/-- Reduction of a failed `Except` bind. -/
theorem exceptBind_err {α β : Type} (e : PyErr) (f : α → Except PyErr β) :
    (Except.error e : Except PyErr α) >>= f = (Except.error e : Except PyErr β) := rfl

/-- `String.toList` is the character data. -/
theorem string_toList_eq_data (s : String) : s.toList = s.data := rfl

/-- `listContains` decides contiguous-sublist membership. -/
theorem listContains_iff (hay needle : List Char) :
    listContains hay needle = true ↔ ∃ pre post, hay = pre ++ needle ++ post := by
  unfold listContains
  rw [List.any_eq_true]
  constructor
  · rintro ⟨t, ht, hp⟩
    rw [List.mem_tails] at ht
    rw [List.isPrefixOf_iff_prefix] at hp
    obtain ⟨pre, post, h⟩ := List.infix_iff_prefix_suffix.mpr ⟨t, hp, ht⟩
    exact ⟨pre, post, h.symm⟩
  · rintro ⟨pre, post, h⟩
    refine ⟨needle ++ post, ?_, ?_⟩
    · rw [List.mem_tails]
      exact ⟨pre, by rw [h, List.append_assoc]⟩
    · rw [List.isPrefixOf_iff_prefix]
      exact ⟨post, rfl⟩

/-- A trivial client used to instantiate universally quantified theorems. -/
def inertClient : BedrockClient :=
  BedrockClient.mk (fun _ _ => .otherError "inert") (fun _ _ _ => .otherError "inert")

/-- Reduction of the `try` block once the query has been extracted. -/
theorem handlerTry_ok_query (c : BedrockClient) (m : String) (event q : Json)
    (h : extractedQuery event = .ok q) :
    handlerTry c m event =
      if !truthy q then
        .ok (LambdaResponse.mk 400 standardHeaders (errorBody "Query is required"))
      else
        (invoke_bedrock c m q).bind (fun r =>
          .ok (LambdaResponse.mk 200 standardHeaders
            (json_dumps (.obj [("query", q), ("response", r), ("model", .str m)])))) := by
  unfold handlerTry
  rw [h]
  rfl

/-- Reduction of the `try` block when query extraction raises. -/
theorem handlerTry_err_query (c : BedrockClient) (m : String) (event : Json) (e : PyErr)
    (h : extractedQuery event = .error e) :
    handlerTry c m event = .error e := by
  unfold handlerTry
  rw [h]
  rfl

/-- Every run of the `try` block yields the 400 envelope, a 200 envelope, or
an exception. -/
theorem handlerTry_shape (c : BedrockClient) (m : String) (event : Json) :
    handlerTry c m event =
        .ok (LambdaResponse.mk 400 standardHeaders (errorBody "Query is required"))
    ∨ (∃ q r, handlerTry c m event =
        .ok (LambdaResponse.mk 200 standardHeaders
          (json_dumps (.obj [("query", q), ("response", r), ("model", .str m)]))))
    ∨ (∃ e, handlerTry c m event = .error e) := by
  cases hq : extractedQuery event with
  | error e => exact Or.inr (Or.inr ⟨e, handlerTry_err_query c m event e hq⟩)
  | ok q =>
    rw [handlerTry_ok_query c m event q hq]
    cases ht : truthy q with
    | false => exact Or.inl (by simp)
    | true =>
      cases hv : invoke_bedrock c m q with
      | ok r => exact Or.inr (Or.inl ⟨q, r, by simp [Except.bind]⟩)
      | error e => exact Or.inr (Or.inr ⟨e, by simp [Except.bind]⟩)

/-- C2: for every inbound envelope whose extracted query is missing or the
empty string (both cases surface as the extracted value `""`, the default of
`body.get('query', '')`), the handler returns status 400 with body exactly
`\x7b"error": "Query is required"\x7d` and the standard headers, and the result is
independent of the Bedrock client, i.e. the Model Invoker is never called. -/
theorem C2_empty_query_rejected (c : BedrockClient) (m : String) (event : Json)
    (h : extractedQuery event = .ok (.str "")) :
    lambda_handler c m event =
      LambdaResponse.mk 400 standardHeaders "\x7b\"error\": \"Query is required\"\x7d"
    ∧ ∀ c2 : BedrockClient, lambda_handler c m event = lambda_handler c2 m event := by
  have key : ∀ c2 : BedrockClient, lambda_handler c2 m event =
      LambdaResponse.mk 400 standardHeaders "\x7b\"error\": \"Query is required\"\x7d" := by
    intro c2
    unfold lambda_handler
    rw [handlerTry_ok_query c2 m event (.str "") h]
    rfl
  exact ⟨key c, fun c2 => (key c).trans (key c2).symm⟩

/-- C2 witness: a direct-invocation envelope with `query` set to `""`. -/
theorem C2_empty_query_rejected_witness :
    lambda_handler inertClient MODEL_ID (.obj [("query", .str "")]) =
      LambdaResponse.mk 400 standardHeaders "\x7b\"error\": \"Query is required\"\x7d" :=
  (C2_empty_query_rejected inertClient MODEL_ID (.obj [("query", .str "")]) rfl).1

/-- C3: the Anthropic-style shape is selected iff the model identifier
contains the substring `"anthropic"` case-insensitively (an occurrence of
`"anthropic"` in the lower-cased identifier), and nothing else influences the
choice: on the Anthropic side the result depends only on the `invoke_model`
oracle, otherwise only on the `converse` oracle. -/
theorem C3_model_family_selection (m : String) (q : Json) (c1 c2 : BedrockClient) :
    (isAnthropicModel m = true ↔
      ∃ pre post : List Char, (pyLower m).toList = pre ++ ("anthropic".toList) ++ post)
    ∧ (isAnthropicModel m = true → c1.invoke_model = c2.invoke_model →
        invoke_bedrock c1 m q = invoke_bedrock c2 m q)
    ∧ (isAnthropicModel m = false → c1.converse = c2.converse →
        invoke_bedrock c1 m q = invoke_bedrock c2 m q) := by
  refine ⟨?_, ?_, ?_⟩
  · simpa [isAnthropicModel, strContainsS] using
      listContains_iff (pyLower m).toList ("anthropic".toList)
  · intro h he
    unfold invoke_bedrock
    rw [h, he]
    rfl
  · intro h he
    unfold invoke_bedrock
    rw [h, he]
    rfl

/-- C3 witness: a mixed-case identifier selects the Anthropic shape and its
lower-casing exhibits the substring occurrence. -/
theorem C3_model_family_selection_witness :
    ∃ pre post : List Char,
      (pyLower "XAnthropicY").toList = pre ++ ("anthropic".toList) ++ post :=
  (C3_model_family_selection "XAnthropicY" .null inertClient inertClient).1.mp (by decide)

/-- C10: validation is Python truthiness of the extracted query, not
string-ness: a falsy query (empty string, 0, False, None, empty list) is
rejected with the 400 envelope, while any truthy query — string or not — is
passed as-is to `invoke_bedrock`. -/
theorem C10_truthiness_validation (c : BedrockClient) (m : String) (event q : Json)
    (h : extractedQuery event = .ok q) :
    (truthy q = false →
      lambda_handler c m event =
        LambdaResponse.mk 400 standardHeaders "\x7b\"error\": \"Query is required\"\x7d")
    ∧ (truthy q = true →
      lambda_handler c m event =
        match invoke_bedrock c m q with
        | .ok r => LambdaResponse.mk 200 standardHeaders
            (json_dumps (.obj [("query", q), ("response", r), ("model", .str m)]))
        | .error e => LambdaResponse.mk 500 standardHeaders
            (errorBody ("Internal server error: " ++ e.msg)))
    ∧ truthy (.str "") = false ∧ truthy (.num 0) = false ∧ truthy (.bool false) = false
    ∧ truthy .null = false ∧ truthy (.arr []) = false
    ∧ (∀ n : Int, n ≠ 0 → truthy (.num n) = true)
    ∧ (∀ xs : List Json, xs ≠ [] → truthy (.arr xs) = true) := by
  refine ⟨?_, ?_, rfl, rfl, rfl, rfl, rfl, ?_, ?_⟩
  · intro ht
    unfold lambda_handler
    rw [handlerTry_ok_query c m event q h, ht]
    rfl
  · intro ht
    unfold lambda_handler
    rw [handlerTry_ok_query c m event q h, ht]
    cases hv : invoke_bedrock c m q with
    | ok r => rfl
    | error e => rfl
  · intro n hn
    simp [truthy, hn]
  · intro xs hx
    cases xs with
    | nil => exact absurd rfl hx
    | cons a l => rfl

/-- C10 witness: the non-string truthy query `5` passes validation and is
handed to the Model Invoker (whose failure here is surfaced as a 500). -/
theorem C10_truthiness_validation_witness :
    lambda_handler inertClient MODEL_ID (.obj [("query", .num 5)]) =
      LambdaResponse.mk 500 standardHeaders
        (errorBody ("Internal server error: " ++ "inert")) :=
  ((C10_truthiness_validation inertClient MODEL_ID (.obj [("query", .num 5)])
    (.num 5) rfl).2.1 rfl).trans rfl

/-- C9: every outbound envelope — 200, 400 or 500 — carries the identical
fixed header mapping: JSON content type, wildcard CORS origin, allowed
headers Content-Type, allowed methods POST, OPTIONS. -/
theorem C9_headers_invariant (c : BedrockClient) (m : String) (event : Json) :
    (lambda_handler c m event).headers =
      [("Content-Type", "application/json"),
       ("Access-Control-Allow-Origin", "*"),
       ("Access-Control-Allow-Headers", "Content-Type"),
       ("Access-Control-Allow-Methods", "POST, OPTIONS")] := by
  rcases handlerTry_shape c m event with hs | ⟨q, r, hs⟩ | ⟨e, hs⟩ <;>
    (unfold lambda_handler; rw [hs]; all_goals rfl)

/-- C8: any exception inside the `try` block — a JSON parse failure of a
string `body`, a malformed structure, or anything propagated from
`invoke_bedrock` — yields status 500 with body
`\x7b"error": "Internal server error: <message>"\x7d`; and for every input and
client behaviour whatsoever, the handler returns a well-formed envelope:
a body that is the JSON serialization of some object, the standard headers,
and status 200, 400 or 500 — never an unhandled crash. -/
theorem C8_exceptions_to_500 (c : BedrockClient) (m : String) (event : Json) :
    (∀ e : PyErr, handlerTry c m event = .error e →
      lambda_handler c m event =
        LambdaResponse.mk 500 standardHeaders
          (json_dumps (.obj [("error", .str ("Internal server error: " ++ e.msg))])))
    ∧ (∃ j : Json, (lambda_handler c m event).body = json_dumps j)
    ∧ (lambda_handler c m event).headers = standardHeaders
    ∧ ((lambda_handler c m event).statusCode = 200 ∨
       (lambda_handler c m event).statusCode = 400 ∨
       (lambda_handler c m event).statusCode = 500) := by
  refine ⟨?_, ?_, ?_, ?_⟩
  · intro e he
    unfold lambda_handler
    rw [he]
    rfl
  · rcases handlerTry_shape c m event with hs | ⟨q, r, hs⟩ | ⟨e, hs⟩
    · exact ⟨.obj [("error", .str "Query is required")],
        by unfold lambda_handler; rw [hs]; rfl⟩
    · exact ⟨.obj [("query", q), ("response", r), ("model", .str m)],
        by unfold lambda_handler; rw [hs]⟩
    · exact ⟨.obj [("error", .str ("Internal server error: " ++ e.msg))],
        by unfold lambda_handler; rw [hs]; rfl⟩
  · rcases handlerTry_shape c m event with hs | ⟨q, r, hs⟩ | ⟨e, hs⟩ <;>
      (unfold lambda_handler; rw [hs])
  · rcases handlerTry_shape c m event with hs | ⟨q, r, hs⟩ | ⟨e, hs⟩
    · exact Or.inr (Or.inl (by unfold lambda_handler; rw [hs]))
    · exact Or.inl (by unfold lambda_handler; rw [hs])
    · exact Or.inr (Or.inr (by unfold lambda_handler; rw [hs]))

/-- C8 witness: a gateway envelope whose string `body` is not JSON is caught
and surfaced as a 500 with the generic internal-error body. -/
theorem C8_exceptions_to_500_witness :
    lambda_handler inertClient MODEL_ID (.obj [("body", .str "not json")]) =
      LambdaResponse.mk 500 standardHeaders
        (json_dumps (.obj [("error", .str ("Internal server error: " ++ "Expecting value"))])) :=
  (C8_exceptions_to_500 inertClient MODEL_ID (.obj [("body", .str "not json")])).1
    ⟨"Expecting value"⟩ rfl

/-- Reduction of `pure` in the `Except` monad. -/
theorem exceptPure {α : Type} (a : α) : (pure a : Except PyErr α) = .ok a := rfl

/-- A non-empty string has non-zero length. -/
theorem string_length_ne_zero (s : String) (h : s ≠ "") : s.length ≠ 0 := by
  intro h0
  apply h
  cases s with
  | mk d =>
    cases d with
    | nil => rfl
    | cons a l => simp [String.length] at h0

/-- C4: on the Anthropic path the Model Invoker serializes exactly the payload
`\x7banthropic_version, max_tokens: 1000, messages: [\x7brole: "user",
content: query\x7d]\x7d`, hands it to `invoke_model`, and extracts the answer from
`content[0].text` of the decoded response. -/
theorem C4_anthropic_payload_and_extraction (c : BedrockClient) (m : String) (q : Json)
    (h : isAnthropicModel m = true) :
    invoke_bedrock c m q =
      (match c.invoke_model m (json_dumps (.obj
          [("anthropic_version", .str "bedrock-2023-05-31"),
           ("max_tokens", .num 1000),
           ("messages", .arr [.obj [("role", .str "user"), ("content", q)]])])) with
        | .ok response_body => extractAnthropic response_body
        | .clientError code message => .error (mapClientError m code message)
        | .otherError msg => .error ⟨msg⟩)
    ∧ (∀ (fs gs : List (String × Json)) (rest : List Json) (t : Json),
        objLookup fs "content" = some (.arr (.obj gs :: rest)) →
        objLookup gs "text" = some t →
        extractAnthropic (.obj fs) = .ok t) := by
  constructor
  · unfold invoke_bedrock
    rw [h]
    rfl
  · intro fs gs rest t h1 h2
    simp [extractAnthropic, pyInStr, pyGetItemStr, pyLen, pyGetItemNat, h1, h2,
      exceptBind_ok, exceptPure]

/-- C4 witness: a well-formed Anthropic response yields its first text. -/
theorem C4_anthropic_payload_and_extraction_witness :
    extractAnthropic (.obj [("content", .arr [.obj [("text", .str "hello")]])]) =
      .ok (.str "hello") :=
  (C4_anthropic_payload_and_extraction inertClient MODEL_ID (.str "hi") (by decide)).2
    [("content", .arr [.obj [("text", .str "hello")]])] [("text", .str "hello")]
    [] (.str "hello") rfl rfl

/-- C5: on the Converse path the Model Invoker passes exactly the messages
`[\x7brole: "user", content: [\x7btext: query\x7d]\x7d]` and the inference
configuration with `maxTokens = 1000` and `temperature = 0.7`, and extracts
the answer from `output.message.content[0].text` of the response. -/
theorem C5_converse_payload_and_extraction (c : BedrockClient) (m : String) (q : Json)
    (h : isAnthropicModel m = false) :
    invoke_bedrock c m q =
      (match c.converse m
          (.arr [.obj [("role", .str "user"), ("content", .arr [.obj [("text", q)]])]])
          converseInferenceConfig with
        | .ok response => extractConverse response
        | .clientError code message => .error (mapClientError m code message)
        | .otherError msg => .error ⟨msg⟩)
    ∧ converseInferenceConfig.maxTokens = 1000
    ∧ converseInferenceConfig.temperature = 7 / 10
    ∧ (∀ (fs os ms gs : List (String × Json)) (rest : List Json) (t : Json),
        objLookup fs "output" = some (.obj os) →
        objLookup os "message" = some (.obj ms) →
        objLookup ms "content" = some (.arr (.obj gs :: rest)) →
        objLookup gs "text" = some t →
        extractConverse (.obj fs) = .ok t) := by
  refine ⟨?_, rfl, by norm_num [converseInferenceConfig], ?_⟩
  · unfold invoke_bedrock
    rw [h]
    rfl
  · intro fs os ms gs rest t h1 h2 h3 h4
    simp [extractConverse, pyInStr, pyGetItemStr, pyGetItemNat, h1, h2, h3, h4,
      exceptBind_ok, exceptPure]

/-- C5 witness: a well-formed Converse response yields its first text. -/
theorem C5_converse_payload_and_extraction_witness :
    extractConverse (.obj [("output", .obj [("message",
        .obj [("content", .arr [.obj [("text", .str "world")]])])])]) =
      .ok (.str "world") :=
  (C5_converse_payload_and_extraction inertClient "amazon.nova-micro-v1:0" (.str "hi")
      (by decide)).2.2.2
    [("output", .obj [("message", .obj [("content", .arr [.obj [("text", .str "world")]])])])]
    [("message", .obj [("content", .arr [.obj [("text", .str "world")]])])]
    [("content", .arr [.obj [("text", .str "world")]])]
    [("text", .str "world")] [] (.str "world") rfl rfl rfl rfl

/-- C6: round trip — for every non-empty extracted query, when the provider
answers `\x7b"content": [\x7b"text": "hello"\x7d]\x7d` on the Anthropic path, the
handler returns status 200 with body the JSON encoding of
`\x7bquery, response: "hello", model\x7d`. -/
theorem C6_round_trip (c : BedrockClient) (m s : String) (event : Json)
    (hm : isAnthropicModel m = true)
    (hs : s ≠ "")
    (hq : extractedQuery event = .ok (.str s))
    (hc : ∀ mid payload, c.invoke_model mid payload =
      .ok (.obj [("content", .arr [.obj [("text", .str "hello")]])])) :
    lambda_handler c m event =
      LambdaResponse.mk 200 standardHeaders
        (json_dumps (.obj [("query", .str s), ("response", .str "hello"),
          ("model", .str m)])) := by
  have ht : truthy (.str s) = true := by
    simp [truthy, string_length_ne_zero s hs]
  have hv : invoke_bedrock c m (.str s) = .ok (.str "hello") := by
    unfold invoke_bedrock
    rw [hm, hc]
    rfl
  unfold lambda_handler
  rw [handlerTry_ok_query c m event (.str s) hq, ht, hv]
  rfl

/-- A client answering every `invoke_model` call with the mocked response of
the round-trip property. -/
def helloClient : BedrockClient :=
  BedrockClient.mk
    (fun _ _ => .ok (.obj [("content", .arr [.obj [("text", .str "hello")]])]))
    (fun _ _ _ => .otherError "unused")

/-- C6 witness: the round trip at query `"hi"` and the default model id. -/
theorem C6_round_trip_witness :
    lambda_handler helloClient MODEL_ID (.obj [("query", .str "hi")]) =
      LambdaResponse.mk 200 standardHeaders
        (json_dumps (.obj [("query", .str "hi"), ("response", .str "hello"),
          ("model", .str MODEL_ID)])) :=
  C6_round_trip helloClient MODEL_ID "hi" (.obj [("query", .str "hi")])
    (by decide) (by decide) rfl (fun _ _ => rfl)

/-- C7: a provider `ClientError` is mapped and surfaced as a 500 envelope;
`AccessDeniedException` yields guidance mentioning model access and the
`bedrock:InvokeModel` permission, `ResourceNotFoundException` yields a message
containing the configured model identifier, and any other code preserves the
provider's own error message. -/
theorem C7_provider_error_mapping (c : BedrockClient) (m code msg : String)
    (event q : Json)
    (hq : extractedQuery event = .ok q) (ht : truthy q = true)
    (h1 : ∀ mid payload, c.invoke_model mid payload = .clientError code msg)
    (h2 : ∀ mid messages cfg, c.converse mid messages cfg = .clientError code msg) :
    lambda_handler c m event =
      LambdaResponse.mk 500 standardHeaders
        (errorBody ("Internal server error: " ++ (mapClientError m code msg).msg))
    ∧ (code = "AccessDeniedException" →
        strContainsS (mapClientError m code msg).msg "Model access is enabled" = true
        ∧ strContainsS (mapClientError m code msg).msg "bedrock:InvokeModel" = true)
    ∧ (code = "ResourceNotFoundException" →
        strContainsS (mapClientError m code msg).msg m = true)
    ∧ (code ≠ "AccessDeniedException" → code ≠ "ResourceNotFoundException" →
        (mapClientError m code msg).msg = "Bedrock error: " ++ msg) := by
  have hv : invoke_bedrock c m q = .error (mapClientError m code msg) := by
    unfold invoke_bedrock
    cases hb : isAnthropicModel m <;> simp [h1, h2]
  refine ⟨?_, ?_, ?_, ?_⟩
  · unfold lambda_handler
    rw [handlerTry_ok_query c m event q hq, ht, hv]
    rfl
  · intro hc
    subst hc
    rw [show mapClientError m "AccessDeniedException" msg =
      ⟨"Access denied to Bedrock. Please ensure: 1) Model access is enabled in AWS Console, 2) Lambda role has bedrock:InvokeModel permission"⟩ from rfl]
    exact ⟨by decide, by decide⟩
  · intro hc
    subst hc
    rw [show mapClientError m "ResourceNotFoundException" msg =
      ⟨"Model not found: " ++ m ++ ". Please check the model ID."⟩ from rfl]
    unfold strContainsS
    rw [listContains_iff]
    refine ⟨("Model not found: ").toList, (". Please check the model ID.").toList, ?_⟩
    simp [string_toList_eq_data, String.data_append]
  · intro hn1 hn2
    unfold mapClientError
    rw [if_neg hn1, if_neg hn2]

/-- A client failing every call with `AccessDeniedException`. -/
def deniedClient : BedrockClient :=
  BedrockClient.mk
    (fun _ _ => .clientError "AccessDeniedException" "denied")
    (fun _ _ _ => .clientError "AccessDeniedException" "denied")

/-- C7 witness: an access-denied provider error surfaces as the 500 envelope
carrying the mapped guidance message. -/
theorem C7_provider_error_mapping_witness :
    lambda_handler deniedClient MODEL_ID (.obj [("query", .str "hi")]) =
      LambdaResponse.mk 500 standardHeaders
        (errorBody ("Internal server error: " ++
          (mapClientError MODEL_ID "AccessDeniedException" "denied").msg)) :=
  (C7_provider_error_mapping deniedClient MODEL_ID "AccessDeniedException" "denied"
    (.obj [("query", .str "hi")]) (.str "hi") rfl (by decide)
    (fun _ _ => rfl) (fun _ _ _ => rfl)).1

/-- A client whose Converse answer is structurally valid but has an empty
`content` list. -/
def emptyContentConverseClient : BedrockClient :=
  BedrockClient.mk (fun _ _ => .otherError "unused")
    (fun _ _ _ => .ok (.obj [("output", .obj [("message", .obj [("content", .arr [])])])]))

/-- C1 counterexample: on the generic/Converse path, a structurally valid
response whose `output.message.content` list is empty does NOT yield the
fallback string — line 158 indexes `content[0]` unguarded, so the Model
Invoker raises an IndexError instead. -/
theorem C1_counterexample :
    invoke_bedrock emptyContentConverseClient "amazon.nova-micro-v1:0" (.str "hi")
      = .error ⟨"list index out of range"⟩
    ∧ invoke_bedrock emptyContentConverseClient "amazon.nova-micro-v1:0" (.str "hi")
      ≠ .ok (.str "No response generated") := by
  refine ⟨rfl, ?_⟩
  intro h
  rw [show invoke_bedrock emptyContentConverseClient "amazon.nova-micro-v1:0" (.str "hi")
    = .error ⟨"list index out of range"⟩ from rfl] at h
  exact Except.noConfusion h

/-- C1 (amended): on the generic/Converse path the fallback string is
returned when the `output` field is absent or `output.message` is absent; but
a present `output.message` with an empty `content` list raises an IndexError
(surfaced by the adapter as a 500), not the fallback. -/
theorem C1_amended_generic_fallback (fs : List (String × Json)) :
    (objLookup fs "output" = none →
      extractConverse (.obj fs) = .ok (.str "No response generated"))
    ∧ (∀ os, objLookup fs "output" = some (.obj os) →
        objLookup os "message" = none →
        extractConverse (.obj fs) = .ok (.str "No response generated"))
    ∧ (∀ os ms, objLookup fs "output" = some (.obj os) →
        objLookup os "message" = some (.obj ms) →
        objLookup ms "content" = some (.arr []) →
        extractConverse (.obj fs) = .error ⟨"list index out of range"⟩) := by
  refine ⟨?_, ?_, ?_⟩
  · intro h1
    simp [extractConverse, pyInStr, h1, exceptBind_ok, exceptPure]
  · intro os h1 h2
    simp [extractConverse, pyInStr, pyGetItemStr, h1, h2, exceptBind_ok, exceptPure]
  · intro os ms h1 h2 h3
    simp [extractConverse, pyInStr, pyGetItemStr, pyGetItemNat, h1, h2, h3,
      exceptBind_ok, exceptBind_err, exceptPure, Except.bind]

/-- C1 amended witness: a response without `output` yields the fallback. -/
theorem C1_amended_generic_fallback_witness :
    extractConverse (.obj []) = .ok (.str "No response generated") :=
  (C1_amended_generic_fallback []).1 rfl
